import Mathlib

/-!
Verification of the query-analysis service: the heuristic classifier
`analyze_query_performance` (`app/ai-service/app/services.py`) and the
HTTP gateway (`app/ai-service/app/main.py`), shallowly embedded in Lean.
Python string membership (`pat in s`) is embedded as `strContains`, and
Python `str.upper` as `strToUpper` (per-character ASCII case mapping).
-/

/-- Tests whether the first list is a prefix of the second, by direct
character comparison. -/
def strHasPrefixL : List Char → List Char → Bool
  | [], _ => true
  | _ :: _, [] => false
  | p :: ps, c :: cs => p == c && strHasPrefixL ps cs

/-- Tests whether `pat` occurs as a contiguous run inside the second list,
trying every suffix. -/
def strContainsAux (pat : List Char) : List Char → Bool
  | [] => strHasPrefixL pat []
  | c :: cs => strHasPrefixL pat (c :: cs) || strContainsAux pat cs

/-- Embedding of the Python substring test `pat in s`. -/
def strContains (s pat : String) : Bool :=
  strContainsAux pat.toList s.toList

/-- Embedding of Python `str.upper`: uppercase every character (ASCII
case mapping, as in `Char.toUpper`). -/
def strToUpper (s : String) : String :=
  String.mk (s.data.map Char.toUpper)

/-- The fixed advice string returned by rule 2 of the classifier
(`SELECT *` with no `WHERE`), verbatim from `services.py`. -/
def selectStarAdvice : String :=
  "Consider avoiding 'SELECT *' without a WHERE clause on large tables as it can cause full table scans. Specify the columns you need."

/-- The constant tail of the rule-3 advice string, following the
interpolated `db_type`, verbatim from the f-string in `services.py`. -/
def wildcardTail : String :=
  ", using a leading wildcard with LIKE (e.g., LIKE '%value') prevents the use of standard indexes. Consider using a Full-Text Search solution if this is a common pattern."

/-- The rule-3 advice string templated with `db_type`: embedding of the
Python f-string in `services.py`. -/
def wildcardAdvice (db_type : String) : String :=
  "For " ++ db_type ++ wildcardTail

/-- The generic fallback advice string, verbatim from `services.py`. -/
def fallbackAdvice : String :=
  "No specific suggestion available. Review the query execution plan for performance bottlenecks and ensure appropriate indexes are in place."

/-- Embedding of `analyze_query_performance` from `services.py`: uppercase
the query, then apply the three ordered substring rules. -/
def analyze_query_performance (query db_type : String) : String :=
  let query_upper := strToUpper query
  if strContains query_upper "SELECT *" && ! strContains query_upper "WHERE" then
    selectStarAdvice
  else if strContains query_upper "LIKE '%" then
    wildcardAdvice db_type
  else
    fallbackAdvice

/-- Embedding of the `QueryAnalysisRequest` pydantic model from `main.py`. -/
structure QueryAnalysisRequest where
  query : String
  db_type : String

/-- Embedding of the `QueryAnalysisResponse` pydantic model from `main.py`. -/
structure QueryAnalysisResponse where
  query : String
  suggestion : String
deriving DecidableEq

/-- Embedding of the `analyze_query` handler body from `main.py`: compute
the suggestion and echo the query. -/
def analyze_query (request : QueryAnalysisRequest) : QueryAnalysisResponse :=
  { query := request.query
    suggestion := analyze_query_performance request.query request.db_type }

/-- A JSON-ish field value, enough to distinguish string fields from
non-string ones in a request payload. -/
inductive FieldValue where
  | str : String → FieldValue
  | num : Int → FieldValue
  | boolean : Bool → FieldValue
  | null : FieldValue

/-- An incoming POST payload before validation: each declared field may be
absent or hold any JSON value. -/
structure RawPayload where
  query : Option FieldValue
  db_type : Option FieldValue

/-- Modelled from the spec: the pydantic validation applied by FastAPI to
`QueryAnalysisRequest` is not part of the repository source; the spec says
the request fails with a validation error if `query` or `db_type` are
missing or not strings. -/
def parseRequest (p : RawPayload) : Option QueryAnalysisRequest :=
  match p.query, p.db_type with
  | some (FieldValue.str q), some (FieldValue.str d) => some ⟨q, d⟩
  | _, _ => none

/-- Whether an optional field is present and holds a string. -/
def fieldIsStr : Option FieldValue → Bool
  | some (FieldValue.str _) => true
  | _ => false

/-- Whether a payload fails validation: `query` or `db_type` missing or
not a string. -/
def invalidPayload (p : RawPayload) : Bool :=
  ! (fieldIsStr p.query && fieldIsStr p.db_type)

/-- The outcome of a POST to the analyze endpoint: a validation error or a
successful response. -/
inductive PostResult where
  | validationError : PostResult
  | ok : QueryAnalysisResponse → PostResult
deriving DecidableEq

/-- Modelled from the spec: the gateway around the `analyze_query` handler,
parameterised by the classifier it invokes. Validation happens before the
handler body runs, so an invalid payload never reaches the classifier. -/
def handlePost (classifier : String → String → String) (p : RawPayload) : PostResult :=
  match parseRequest p with
  | none => PostResult.validationError
  | some r => PostResult.ok ⟨r.query, classifier r.query r.db_type⟩

/-- Embedding of the `read_root` handler from `main.py`: a constant
payload, rendered as a field-name/value association list. -/
def read_root : List (String × String) :=
  [("message", "Observability AI Service is running")]

set_option maxRecDepth 8192

/-! Helper lemmas about the substring test. -/

/-- A list is a prefix of itself followed by anything. -/
theorem strHasPrefixL_self_append (p t : List Char) : strHasPrefixL p (p ++ t) = true := by
  induction p with
  | nil => rfl
  | cons c cs ih => simp [strHasPrefixL, ih]

/-- The substring scan succeeds when the pattern sits at the front. -/
theorem strContainsAux_self_append (pat t : List Char) : strContainsAux pat (pat ++ t) = true := by
  cases pat with
  | nil =>
    cases t with
    | nil => rfl
    | cons c cs => simp [strContainsAux, strHasPrefixL]
  | cons c cs =>
    have h := strHasPrefixL_self_append (c :: cs) t
    simp [strContainsAux]
    left
    simpa using h

/-- The substring scan is preserved by prepending characters. -/
theorem strContainsAux_append_left (pat s t : List Char) (h : strContainsAux pat t = true) :
    strContainsAux pat (s ++ t) = true := by
  induction s with
  | nil => simpa using h
  | cons c cs ih =>
    simp [strContainsAux]
    right
    simpa using ih

/-- A string concatenation contains its middle component. -/
theorem strContains_append_middle (a b c : String) : strContains (a ++ b ++ c) b = true := by
  unfold strContains
  have hdata : (a ++ b ++ c).toList = a.toList ++ (b.toList ++ c.toList) := by
    simp [String.toList, String.data_append]
  rw [hdata]
  exact strContainsAux_append_left _ _ _ (strContainsAux_self_append _ _)

/-- The rule-2 advice is never equal to the rule-3 advice, whatever
`db_type` is interpolated: the strings differ at their first character. -/
theorem selectStar_ne_wildcard (d : String) : selectStarAdvice ≠ wildcardAdvice d := by
  intro h
  have h' : selectStarAdvice.data.head? = (wildcardAdvice d).data.head? := by rw [h]
  have hL : selectStarAdvice.data.head? = some 'C' := rfl
  have hR : (wildcardAdvice d).data.head? = some 'F' := by
    simp [wildcardAdvice, String.data_append]
  rw [hL, hR] at h'
  simp at h'

/-! Claim theorems. -/

/-- C1: for every query whose uppercased form contains `SELECT *` but not
`WHERE`, and for every `db_type`, the classifier returns the fixed
unscoped-`SELECT *` advice string (independent of `db_type`). -/
theorem classify_select_star_no_where_fixed_advice (query db_type : String)
    (hsel : strContains (strToUpper query) "SELECT *" = true)
    (hwh : strContains (strToUpper query) "WHERE" = false) :
    analyze_query_performance query db_type = selectStarAdvice := by
  simp [analyze_query_performance, hsel, hwh]

/-- Witness for C1 at the spec scenario input. -/
theorem classify_select_star_no_where_fixed_advice_witness :
    strContains (strToUpper "SELECT * FROM users") "SELECT *" = true ∧
    strContains (strToUpper "SELECT * FROM users") "WHERE" = false ∧
    analyze_query_performance "SELECT * FROM users" "PostgreSQL" = selectStarAdvice :=
  ⟨by decide, by decide,
    classify_select_star_no_where_fixed_advice "SELECT * FROM users" "PostgreSQL"
      (by decide) (by decide)⟩

/-- C2: for every query whose uppercased form contains `LIKE '%` and which
does not match rule 2, the classifier returns the wildcard advice
templated with `db_type`, and that string contains `db_type` verbatim. -/
theorem classify_leading_wildcard_advice_contains_dbtype (query db_type : String)
    (hlike : strContains (strToUpper query) "LIKE '%" = true)
    (hnot2 : (strContains (strToUpper query) "SELECT *"
        && ! strContains (strToUpper query) "WHERE") = false) :
    analyze_query_performance query db_type = wildcardAdvice db_type ∧
    strContains (wildcardAdvice db_type) db_type = true := by
  constructor
  · simp [analyze_query_performance, hnot2, hlike]
  · exact strContains_append_middle "For " db_type wildcardTail

/-- Witness for C2 at the spec scenario input. -/
theorem classify_leading_wildcard_advice_contains_dbtype_witness :
    strContains (strToUpper "SELECT name FROM t WHERE name LIKE '%foo'") "LIKE '%" = true ∧
    (strContains (strToUpper "SELECT name FROM t WHERE name LIKE '%foo'") "SELECT *"
      && ! strContains (strToUpper "SELECT name FROM t WHERE name LIKE '%foo'") "WHERE") = false ∧
    analyze_query_performance "SELECT name FROM t WHERE name LIKE '%foo'" "Oracle"
        = wildcardAdvice "Oracle" ∧
    strContains (wildcardAdvice "Oracle") "Oracle" = true := by
  refine ⟨by decide, by decide, ?_⟩
  exact classify_leading_wildcard_advice_contains_dbtype
    "SELECT name FROM t WHERE name LIKE '%foo'" "Oracle" (by decide) (by decide)

/-- C3: a query matching both rule 2's pattern (`SELECT *`, no `WHERE`) and
rule 3's pattern (`LIKE '%`) gets rule 2's advice, not the wildcard
advice: first match wins. -/
theorem classify_rule2_precedes_rule3 (query db_type : String)
    (hsel : strContains (strToUpper query) "SELECT *" = true)
    (hwh : strContains (strToUpper query) "WHERE" = false)
    (hlike : strContains (strToUpper query) "LIKE '%" = true) :
    analyze_query_performance query db_type = selectStarAdvice ∧
    analyze_query_performance query db_type ≠ wildcardAdvice db_type := by
  have heq : analyze_query_performance query db_type = selectStarAdvice := by
    simp [analyze_query_performance, hsel, hwh]
  refine ⟨heq, ?_⟩
  rw [heq]
  exact selectStar_ne_wildcard db_type

/-- Witness for C3 at a query matching both patterns. -/
theorem classify_rule2_precedes_rule3_witness :
    strContains (strToUpper "SELECT * FROM t LIKE '%x'") "SELECT *" = true ∧
    strContains (strToUpper "SELECT * FROM t LIKE '%x'") "WHERE" = false ∧
    strContains (strToUpper "SELECT * FROM t LIKE '%x'") "LIKE '%" = true ∧
    (analyze_query_performance "SELECT * FROM t LIKE '%x'" "MySQL" = selectStarAdvice ∧
      analyze_query_performance "SELECT * FROM t LIKE '%x'" "MySQL" ≠ wildcardAdvice "MySQL") :=
  ⟨by decide, by decide, by decide,
    classify_rule2_precedes_rule3 "SELECT * FROM t LIKE '%x'" "MySQL"
      (by decide) (by decide) (by decide)⟩

/-- C4 counterexample: on the spec scenario input, whose uppercased form
contains `WHERE`, rule 2 does not match, so the classifier does not
return the unscoped-`SELECT *` advice. -/
theorem classify_where_like_scenario_counterexample :
    analyze_query_performance "SELECT * FROM t WHERE name LIKE '%foo'" "MySQL"
      ≠ selectStarAdvice := by
  decide

/-- C4 amended: on that input the classifier returns the wildcard advice
templated with `MySQL`, because the query contains `WHERE` and so falls
through rule 2 to rule 3. -/
theorem classify_where_like_scenario_returns_wildcard :
    analyze_query_performance "SELECT * FROM t WHERE name LIKE '%foo'" "MySQL"
      = wildcardAdvice "MySQL" := by
  decide

/-- C5: a query matching neither rule 2 nor rule 3 gets the fixed generic
fallback advice, for any `db_type`. -/
theorem classify_generic_fallback (query db_type : String)
    (hnot2 : (strContains (strToUpper query) "SELECT *"
        && ! strContains (strToUpper query) "WHERE") = false)
    (hnot3 : strContains (strToUpper query) "LIKE '%" = false) :
    analyze_query_performance query db_type = fallbackAdvice := by
  simp [analyze_query_performance, hnot2, hnot3]

/-- Witness for C5 at a `SELECT *`-with-`WHERE` query and at the empty
string. -/
theorem classify_generic_fallback_witness :
    (strContains (strToUpper "SELECT * FROM t WHERE id=1") "SELECT *"
      && ! strContains (strToUpper "SELECT * FROM t WHERE id=1") "WHERE") = false ∧
    strContains (strToUpper "SELECT * FROM t WHERE id=1") "LIKE '%" = false ∧
    analyze_query_performance "SELECT * FROM t WHERE id=1" "MySQL" = fallbackAdvice ∧
    analyze_query_performance "" "MySQL" = fallbackAdvice :=
  ⟨by decide, by decide,
    classify_generic_fallback "SELECT * FROM t WHERE id=1" "MySQL" (by decide) (by decide),
    classify_generic_fallback "" "MySQL" (by decide) (by decide)⟩

/-- C6: the classifier is a total function on all pairs of strings, and
its result is always one of the three advice strings: the fixed
`SELECT *` advice, the wildcard advice templated with `db_type`, or the
fixed generic fallback. -/
theorem classify_total_three_outcomes (query db_type : String) :
    analyze_query_performance query db_type = selectStarAdvice ∨
    analyze_query_performance query db_type = wildcardAdvice db_type ∨
    analyze_query_performance query db_type = fallbackAdvice := by
  simp only [analyze_query_performance]
  split
  · exact Or.inl rfl
  split
  · exact Or.inr (Or.inl rfl)
  · exact Or.inr (Or.inr rfl)

/-- C7: the POST handler echoes the request query unchanged and computes
the suggestion by applying the classifier to the request's query and
database type. -/
theorem analyze_query_echoes_and_uses_classifier (request : QueryAnalysisRequest) :
    (analyze_query request).query = request.query ∧
    (analyze_query request).suggestion
      = analyze_query_performance request.query request.db_type :=
  ⟨rfl, rfl⟩

/-- C8: a payload missing `query` or `db_type`, or with a non-string in
either field, yields a validation error, and the classifier is not
invoked: the outcome is the validation error whatever classifier the
gateway carries. -/
theorem invalid_payload_validation_error_no_classifier
    (classifier : String → String → String) (p : RawPayload)
    (h : invalidPayload p = true) :
    handlePost classifier p = PostResult.validationError := by
  have hp : parseRequest p = none := by
    rcases p with ⟨q, d⟩
    rcases q with _ | v
    · rfl
    · rcases v with s | n | b | _
      · rcases d with _ | w
        · rfl
        · rcases w with s2 | n2 | b2 | _
          · exfalso
            simp [invalidPayload, fieldIsStr] at h
          · rfl
          · rfl
          · rfl
      · rfl
      · rfl
      · rfl
  unfold handlePost
  rw [hp]

/-- Witness for C8 at a payload with `db_type` missing. -/
theorem invalid_payload_validation_error_no_classifier_witness :
    invalidPayload (RawPayload.mk (some (FieldValue.str "SELECT * FROM t")) none) = true ∧
    handlePost analyze_query_performance
        (RawPayload.mk (some (FieldValue.str "SELECT * FROM t")) none)
      = PostResult.validationError :=
  ⟨by decide,
    invalid_payload_validation_error_no_classifier analyze_query_performance
      (RawPayload.mk (some (FieldValue.str "SELECT * FROM t")) none) (by decide)⟩

/-- C9: the liveness endpoint always returns the fixed payload with the
message that the service is running. -/
theorem read_root_constant_message :
    read_root = [("message", "Observability AI Service is running")] := rfl

/-- C10: whenever the classifier's result on `(query, d1)` is not the
wildcard advice for `d1`, the result is the same for every other database
type label: `db_type` influences the output only in the rule-3 branch. -/
theorem classify_dbtype_noninterference (query d1 d2 : String)
    (h : analyze_query_performance query d1 ≠ wildcardAdvice d1) :
    analyze_query_performance query d1 = analyze_query_performance query d2 := by
  by_cases h1 : (strContains (strToUpper query) "SELECT *"
      && ! strContains (strToUpper query) "WHERE") = true
  · simp [analyze_query_performance, h1]
  · have h1' : (strContains (strToUpper query) "SELECT *"
        && ! strContains (strToUpper query) "WHERE") = false := by
      revert h1
      cases strContains (strToUpper query) "SELECT *" && ! strContains (strToUpper query) "WHERE" <;>
        simp
    by_cases h3 : strContains (strToUpper query) "LIKE '%" = true
    · exfalso
      exact h (by simp [analyze_query_performance, h1', h3])
    · have h3' : strContains (strToUpper query) "LIKE '%" = false := by
        revert h3
        cases strContains (strToUpper query) "LIKE '%" <;> simp
      simp [analyze_query_performance, h1', h3']

/-- Witness for C10 at a rule-2 query and two different database labels. -/
theorem classify_dbtype_noninterference_witness :
    analyze_query_performance "SELECT * FROM t" "MySQL" ≠ wildcardAdvice "MySQL" ∧
    analyze_query_performance "SELECT * FROM t" "MySQL"
      = analyze_query_performance "SELECT * FROM t" "PostgreSQL" :=
  ⟨by decide,
    classify_dbtype_noninterference "SELECT * FROM t" "MySQL" "PostgreSQL" (by decide)⟩
